import Mathlib

/-
  Verification of src/src/recorder/handle_signal.c : the signal-interception
  and event-classification core of a record-and-replay debugger.

  The C functions are shallowly embedded as pure Lean functions.  External
  collaborators (ptrace register access, instruction decoder, performance
  counters, protected-region bookkeeping, trace log) are modelled by an
  explicit environment of responses; their side effects (signals delivered by
  single-stepping, events and memory regions appended to the trace log, values
  written to the event field of the context) are returned as explicit logs.
  A C assert firing, and the drain loop running out of observed stops, are
  modelled as the result none.
-/

/-- Linux signal number of the illegal-instruction fault (x86). -/
def SIGILL : Int := 4

/-- Linux signal number of the trace-trap signal (x86). -/
def SIGTRAP : Int := 5

/-- Linux signal number of the bus-error fault (x86). -/
def SIGBUS : Int := 7

/-- Linux signal number of the floating-point-exception fault (x86). -/
def SIGFPE : Int := 8

/-- Linux signal number of the segmentation fault (x86). -/
def SIGSEGV : Int := 11

/-- Linux signal number of the stack fault (x86). -/
def SIGSTKFLT : Int := 16

/-- Linux signal number of the io-ready signal (x86), used by the recorder as
its scheduling interrupt. -/
def SIGIO : Int := 29

/-- Modelled from the spec: the timestamp-trap event outcome tag.  The header
defining the event tag constants (share/trace.h, included via recorder.h) is
not under src/; the spec describes the outcomes as a tagged enumeration, so
the tags are modelled as distinct nonzero integers. -/
def SIG_SEGV_RDTSC : Int := 3

/-- Modelled from the spec: the mapped-memory-read event outcome tag (same
missing header as the timestamp-trap tag; distinct and nonzero). -/
def SIG_SEGV_MMAP_READ : Int := 4

/-- Modelled from the spec: the mapped-memory-write event outcome tag (same
missing header as the timestamp-trap tag; distinct and nonzero). -/
def SIG_SEGV_MMAP_WRITE : Int := 5

/-- Modelled from the spec: the scheduler-time-slice-expired event outcome tag
(same missing header as the timestamp-trap tag; distinct and nonzero). -/
def USR_SCHED : Int := 2

/-- Modelled from the spec: the bit that marks a genuine signal event as
deterministically delivered.  Defined in a header not under src/; the code
computes the event as -(sig | DET_SIGNAL_BIT) for deterministic signals. -/
def DET_SIGNAL_BIT : Nat := 128

/-- Modelled from the spec: the trace-log checkpoint tag used by
record_event; defined in a header not under src/. -/
def STATE_SYSCALL_ENTRY : Int := 0

/-- Modelled from the spec: the configured per-timeslice retired-instruction
budget, defined in recorder.h which is not under src/.  The claims only
compare counter readings against it, so any fixed positive value serves. -/
def MAX_RECORD_INTERVAL : Nat := 1000000

/-- The x86 register file of the tracee as used by this core (fields of
struct user_regs_struct that the code reads or writes).  Register values are
natural numbers below 2 ^ 32; arithmetic that can overflow is taken mod
2 ^ 32 explicitly. -/
structure Regs where
  eax : Nat
  edx : Nat
  eip : Nat
  esp : Nat
deriving DecidableEq

/-- The kernel fault-info record (siginfo_t) as read through
sys_ptrace_getsiginfo: signal number, signed origin code, faulting address. -/
structure Siginfo where
  si_signo : Int
  si_code : Int
  si_addr : Nat
deriving DecidableEq

/-- Modelled from the spec: the wait-status returned by the blocking wait.
The collaborator signal_pending (share/util.c, not under src/) extracts the
pending signal number from it; the status is modelled as carrying exactly
that number. -/
structure Status where
  pendingSig : Int
deriving DecidableEq

/-- Modelled from the spec: signal_pending extracts the pending signal number
from a wait-status (share/util.c is not under src/). -/
def signal_pending (s : Status) : Int :=
  s.pendingSig

/-- The state of the traced child process itself: its register file and its
memory (byte addressable). -/
structure Tracee where
  regs : Regs
  mem : Nat → Nat

/-- The tracee execution context (struct context) fields used by this core. -/
structure Context where
  child_tid : Nat
  status : Status
  event : Int
  child_sig : Int
  child_regs : Regs
deriving DecidableEq

/-- The answer of the instruction decoder collaborator get_inst: the decoded
text of the instruction at the current instruction pointer and its byte
length. -/
structure DecodedInst where
  text : String
  size : Nat
deriving DecidableEq

/-- The environment of collaborator responses for one invocation of the
dispatch orchestrator: every value an external interface returns during the
invocation, and the behaviour of the in-place emulation step. -/
structure Env where
  inst : DecodedInst
  rdtscVal : Nat
  si : Siginfo
  isProtected : Nat → Bool
  isWrite : Bool
  writeInstSize : Nat
  emulate : Context → Tracee → Tracee
  inWrapper : Nat → Bool
  drainSteps : List (Status × Regs)
  rbc : Nat
  instsAfterReset : Nat
  sigStepStatus : Status
  instsAfterStep : Nat
  sigStepRegs : Regs

/-- Embedding of is_deterministic_signal (handle_signal.c lines 130 to 157):
a signal in the synchronous-fault class is deterministic exactly when the
kernel-reported origin code is strictly positive; every other signal is
never deterministic. -/
def is_deterministic_signal (si : Siginfo) : Bool :=
  if si.si_signo = SIGILL ∨ si.si_signo = SIGTRAP ∨ si.si_signo = SIGBUS ∨
      si.si_signo = SIGFPE ∨ si.si_signo = SIGSEGV ∨ si.si_signo = SIGSTKFLT then
    decide (0 < si.si_code)
  else
    false

/-- Embedding of try_handle_rdtsc (handle_signal.c lines 36 to 73).  Returns
none when the assert (sig != SIGTRAP) fires; otherwise some of the C return
value, the updated context and tracee, and the log of values assigned to the
event field of the context. -/
def try_handle_rdtsc (env : Env) (ctx : Context) (tr : Tracee) :
    Option (Int × Context × Tracee × List Int) :=
  let sig := signal_pending ctx.status
  if sig = SIGTRAP then
    none
  else if sig ≤ 0 ∨ sig ≠ SIGSEGV then
    some (0, ctx, tr, [])
  else if env.inst.text.take 5 = "rdtsc" then
    let current_time := env.rdtscVal % 2 ^ 64
    let eax := current_time % 2 ^ 32
    let edx := current_time / 2 ^ 32
    let regs := tr.regs
    let regs2 := { regs with
      eax := eax, edx := edx, eip := (regs.eip + env.inst.size) % 2 ^ 32 }
    some (1, { ctx with event := SIG_SEGV_RDTSC }, { tr with regs := regs2 },
      [SIG_SEGV_RDTSC])
  else
    some (0, ctx, tr, [])

/-- Embedding of try_handle_shared_mmap_access (handle_signal.c lines 80 to
128).  Returns none when the assert (sig != SIGTRAP) fires; otherwise some of
the C return value (the event tag when handled, 0 otherwise), the updated
context and tracee, and the log of values assigned to the event field.  The
event field is assigned before emulate_child_inst runs: the emulation
collaborator receives the already-tagged context. -/
def try_handle_shared_mmap_access (env : Env) (ctx : Context) (tr : Tracee) :
    Option (Int × Context × Tracee × List Int) :=
  let sig := signal_pending ctx.status
  if sig = SIGTRAP then
    none
  else if sig ≤ 0 ∨ sig ≠ SIGSEGV then
    some (0, ctx, tr, [])
  else
    let addr := env.si.si_addr
    if env.isProtected addr = false then
      some (0, ctx, tr, [])
    else
      let ev := if env.isWrite then SIG_SEGV_MMAP_WRITE else SIG_SEGV_MMAP_READ
      let ctx2 := { ctx with event := ev }
      let tr2 := env.emulate ctx2 tr
      some (ctx2.event, ctx2, tr2, [ev])

/-- Embedding of the draining-critical-section loop of handle_signal
(handle_signal.c lines 200 to 206).  While the instruction pointer of the
context register snapshot lies inside instrumented wrapper code, the tracee
is single-stepped with signal number 0, the next stop is awaited, and the
register snapshot is refreshed.  The environment supplies the finite list of
observed (wait-status, registers) stops; running out of stops while still
inside the wrapper models an invocation that never exits the loop, and
yields none.  The third component of the result is the log of signal numbers
delivered by the single steps (one 0 per iteration). -/
def drain (w : Nat → Bool) (ctx : Context) (tr : Tracee) :
    List (Status × Regs) → Option (Context × Tracee × List Int)
  | [] =>
    if w ctx.child_regs.eip then none else some (ctx, tr, [])
  | (st, rg) :: rest =>
    if w ctx.child_regs.eip then
      match drain w { ctx with status := st, child_regs := rg }
          { tr with regs := rg } rest with
      | none => none
      | some (c, t, ds) => some (c, t, 0 :: ds)
    else
      some (ctx, tr, [])

/-- The result of record_signal: updated context and tracee, the events
appended to the trace log by record_event as (event, checkpoint) pairs, the
signal numbers delivered by single-stepping, the memory regions persisted by
record_child_data as (event, length, address) triples, and the log of values
assigned to the event field of the context. -/
structure RecordOut where
  ctx : Context
  tr : Tracee
  recordedEvents : List (Int × Int)
  delivered : List Int
  recordedData : List (Int × Nat × Nat)
  eventAssignments : List Int

/-- The genuine-signal event value computed by record_signal: for a
deterministic delivery -(sig | DET_SIGNAL_BIT), otherwise -sig (the bit-or is
taken on the nonnegative signal number). -/
def sigEvent (sig : Int) (si : Siginfo) : Int :=
  if is_deterministic_signal si then -(((sig.toNat ||| DET_SIGNAL_BIT : Nat) : Int))
  else -sig

/-- Embedding of record_signal (handle_signal.c lines 159 to 191).  A
nonpositive signal returns at once with no effect.  Otherwise the raw signal
number is stored in child_sig, the event is classified via
is_deterministic_signal and tagged, record_event appends it, the performance
counter is reset (the assert that it then reads zero retired instructions
yields none when violated), the tracee is single-stepped re-delivering the
signal, the next stop is awaited, and frame-size bytes at the resulting stack
pointer are persisted: 1024 when the post-step retired-instruction count is
zero, 0 otherwise. -/
def record_signal (sig : Int) (env : Env) (ctx : Context) (tr : Tracee) :
    Option RecordOut :=
  if sig ≤ 0 then
    some ⟨ctx, tr, [], [], [], []⟩
  else
    let ev := sigEvent sig env.si
    let ctx2 := { ctx with child_sig := sig, event := ev }
    if env.instsAfterReset ≠ 0 then
      none
    else
      let ctx3 := { ctx2 with status := env.sigStepStatus }
      let tr2 := { tr with regs := env.sigStepRegs }
      let frame_size : Nat := if env.instsAfterStep = 0 then 1024 else 0
      some ⟨ctx3, tr2, [(ev, STATE_SYSCALL_ENTRY)], [sig],
        [(ctx3.event, frame_size, env.sigStepRegs.esp)], [ev]⟩

/-- Which return path of the dispatch orchestrator resolved the stop. -/
inductive Resolution where
  | rdtscTrap
  | mmapAccess
  | sched
  | genuine
deriving DecidableEq

/-- The result of one invocation of handle_signal: updated context and
tracee, the logs of delivered signals, trace-log events, persisted memory
regions and event-field assignments, and the return path taken. -/
structure HSOut where
  ctx : Context
  tr : Tracee
  delivered : List Int
  recordedEvents : List (Int × Int)
  recordedData : List (Int × Nat × Nat)
  eventAssignments : List Int
  resolvedAs : Resolution

/-- Packaging of a record_signal result as a handle_signal result, after a
drain that delivered ds and handlers that assigned pre. -/
def genuineOut (ds pre : List Int) (ro : RecordOut) : HSOut :=
  ⟨ro.ctx, ro.tr, ds ++ ro.delivered, ro.recordedEvents, ro.recordedData,
    pre ++ ro.eventAssignments, Resolution.genuine⟩

/-- Embedding of handle_signal (handle_signal.c lines 193 to 237).  The
pending signal is read from the wait status once, before the drain loop.
After draining any critical section, a pending segmentation fault is offered
to try_handle_rdtsc and then try_handle_shared_mmap_access; a match
re-assigns the event tag, clears child_sig to 0 and returns.  A pending
scheduling interrupt whose retired-branch count has reached the budget is
tagged scheduler-time-slice-expired with child_sig cleared.  Every other
case falls through to record_signal.  none models an assert firing or the
drain loop never exiting. -/
def handle_signal (env : Env) (ctx : Context) (tr : Tracee) : Option HSOut :=
  let sig := signal_pending ctx.status
  match drain env.inWrapper ctx tr env.drainSteps with
  | none => none
  | some (ctx1, tr1, ds) =>
    if sig = SIGSEGV then
      match try_handle_rdtsc env ctx1 tr1 with
      | none => none
      | some (r, ctx2, tr2, as1) =>
        if r ≠ 0 then
          some ⟨{ ctx2 with event := SIG_SEGV_RDTSC, child_sig := 0 }, tr2, ds,
            [], [], as1 ++ [SIG_SEGV_RDTSC], Resolution.rdtscTrap⟩
        else
          match try_handle_shared_mmap_access env ctx2 tr2 with
          | none => none
          | some (m, ctx3, tr3, as2) =>
            if m ≠ 0 then
              some ⟨{ ctx3 with event := m, child_sig := 0 }, tr3, ds,
                [], [], as1 ++ as2 ++ [m], Resolution.mmapAccess⟩
            else
              (record_signal sig env ctx3 tr3).map (genuineOut ds (as1 ++ as2))
    else if sig = SIGIO then
      if MAX_RECORD_INTERVAL ≤ env.rbc then
        some ⟨{ ctx1 with event := USR_SCHED, child_sig := 0 }, tr1, ds,
          [], [], [USR_SCHED], Resolution.sched⟩
      else
        (record_signal sig env ctx1 tr1).map (genuineOut ds [])
    else
      (record_signal sig env ctx1 tr1).map (genuineOut ds [])

/-- A zeroed register file, used by concrete examples. -/
def regs0 : Regs := ⟨0, 0, 0, 0⟩

/-- A concrete tracee with zeroed registers and zeroed memory. -/
def tr0 : Tracee := ⟨regs0, fun _ => 0⟩

/-- A baseline concrete environment: a one-byte non-rdtsc instruction, no
protected regions, identity emulation, no critical section, counters at 0. -/
def env0 : Env :=
  { inst := ⟨"nop", 1⟩, rdtscVal := 0, si := ⟨0, 0, 0⟩,
    isProtected := fun _ => false, isWrite := false, writeInstSize := 0,
    emulate := fun _ t => t, inWrapper := fun _ => false, drainSteps := [],
    rbc := 0, instsAfterReset := 0, sigStepStatus := ⟨0⟩,
    instsAfterStep := 0, sigStepRegs := regs0 }

/-- A concrete context whose wait status carries the given pending signal,
with sentinel values 99 and 42 in the event and child_sig fields so that
changes to them are visible. -/
def ctx0 (sig : Int) : Context := ⟨7, ⟨sig⟩, 99, 42, regs0⟩

/-- The event tag the shared-memory interceptor assigns for the decoded
access kind reported by the environment (is_write ? write-tag : read-tag). -/
def mmapTag (env : Env) : Int :=
  if env.isWrite then SIG_SEGV_MMAP_WRITE else SIG_SEGV_MMAP_READ

/-- Environment for the concrete rdtsc scenario: a decoded 2-byte rdtsc
instruction and sampled counter 0x1_0000_0002. -/
def envC2 : Env := { env0 with inst := ⟨"rdtsc", 2⟩, rdtscVal := 4294967298 }

/-- Environment for the concrete protected-mapping scenario: every address
protected, the faulting instruction decoded as a write. -/
def envC3 : Env :=
  { env0 with
    isProtected := (fun _ => true)
    isWrite := true
    si := ⟨11, 128, 4096⟩ }

/-- Environment whose retired-branch counter has exceeded the budget. -/
def envC4 : Env := { env0 with rbc := 2000000 }

/-- Environment for the genuine-signal scenario: deterministic SIGFPE fault
info, post-step stack pointer 500, zero post-step instruction count. -/
def envC7 : Env := { env0 with si := ⟨8, 1, 0⟩, sigStepRegs := ⟨1, 2, 3, 500⟩ }

/-- Same as envC7 but with a nonzero post-step instruction count. -/
def envC7b : Env := { envC7 with instsAfterStep := 3 }

/-- Environment for the drain-loop scenario: instruction pointers below 10
count as inside the wrapper, and the single observed stop leaves it. -/
def envC9 : Env :=
  { env0 with
    inWrapper := (fun ip => decide (ip < 10))
    drainSteps := [(⟨11⟩, ⟨0, 0, 20, 0⟩)] }

/-- The result of handle_signal on env0 with pending signal 8 (genuine
asynchronous SIGFPE), written out explicitly. -/
def outC10 : HSOut :=
  ⟨⟨7, ⟨0⟩, -8, 8, regs0⟩, ⟨regs0, fun _ => 0⟩, [8], [(-8, 0)],
    [(-8, 1024, 0)], [-8], Resolution.genuine⟩

lemma drain_skip (w : Nat → Bool) (ctx : Context) (tr : Tracee)
    (steps : List (Status × Regs)) (hw : w ctx.child_regs.eip = false) :
    drain w ctx tr steps = some (ctx, tr, []) := by
  cases steps with
  | nil => simp [drain, hw]
  | cons s rest => obtain ⟨st, rg⟩ := s; simp [drain, hw]

lemma rdtsc_shape (env : Env) (ctx : Context) (tr : Tracee) :
    try_handle_rdtsc env ctx tr = none ∨
    try_handle_rdtsc env ctx tr = some (0, ctx, tr, []) ∨
    ∃ t2, try_handle_rdtsc env ctx tr =
      some (1, { ctx with event := SIG_SEGV_RDTSC }, t2, [SIG_SEGV_RDTSC]) := by
  by_cases h1 : signal_pending ctx.status = SIGTRAP
  · exact Or.inl (by simp [try_handle_rdtsc, h1])
  by_cases h2 : signal_pending ctx.status ≤ 0 ∨ signal_pending ctx.status ≠ SIGSEGV
  · exact Or.inr (Or.inl (by simp only [try_handle_rdtsc, if_neg h1, if_pos h2]))
  by_cases h3 : env.inst.text.take 5 = "rdtsc"
  · refine Or.inr (Or.inr ⟨{ tr with regs := { tr.regs with
      eax := env.rdtscVal % 2 ^ 64 % 2 ^ 32,
      edx := env.rdtscVal % 2 ^ 64 / 2 ^ 32,
      eip := (tr.regs.eip + env.inst.size) % 2 ^ 32 } }, ?_⟩)
    simp only [try_handle_rdtsc, if_neg h1, if_neg h2, if_pos h3]
  · exact Or.inr (Or.inl (by
      simp only [try_handle_rdtsc, if_neg h1, if_neg h2, if_neg h3]))

lemma mmap_shape (env : Env) (ctx : Context) (tr : Tracee) :
    try_handle_shared_mmap_access env ctx tr = none ∨
    try_handle_shared_mmap_access env ctx tr = some (0, ctx, tr, []) ∨
    (mmapTag env = SIG_SEGV_MMAP_READ ∨ mmapTag env = SIG_SEGV_MMAP_WRITE) ∧
      mmapTag env ≠ 0 ∧
      try_handle_shared_mmap_access env ctx tr =
        some (mmapTag env, { ctx with event := mmapTag env },
          env.emulate { ctx with event := mmapTag env } tr, [mmapTag env]) := by
  by_cases h1 : signal_pending ctx.status = SIGTRAP
  · exact Or.inl (by simp [try_handle_shared_mmap_access, h1])
  by_cases h2 : signal_pending ctx.status ≤ 0 ∨ signal_pending ctx.status ≠ SIGSEGV
  · exact Or.inr (Or.inl (by
      simp only [try_handle_shared_mmap_access, if_neg h1, if_pos h2]))
  by_cases h3 : env.isProtected env.si.si_addr = false
  · exact Or.inr (Or.inl (by
      simp only [try_handle_shared_mmap_access, if_neg h1, if_neg h2, if_pos h3]))
  · refine Or.inr (Or.inr ⟨?_, ?_, ?_⟩)
    · cases h : env.isWrite <;> simp [mmapTag, h]
    · cases h : env.isWrite <;>
        simp [mmapTag, h, SIG_SEGV_MMAP_READ, SIG_SEGV_MMAP_WRITE]
    · cases h : env.isWrite <;>
        simp only [try_handle_shared_mmap_access, mmapTag,
          if_neg h1, if_neg h2, if_neg h3, h, if_pos, if_neg, ite_true, ite_false,
          Bool.false_eq_true]

lemma record_props (sig : Int) (env : Env) (ctx : Context) (tr : Tracee)
    (ro : RecordOut) (h : record_signal sig env ctx tr = some ro) :
    (sig ≤ 0 ∧ ro = ⟨ctx, tr, [], [], [], []⟩) ∨
    (0 < sig ∧ ro.ctx.child_sig = sig ∧ ro.ctx.event = sigEvent sig env.si ∧
      ro.eventAssignments = [sigEvent sig env.si]) := by
  by_cases hle : sig ≤ 0
  · refine Or.inl ⟨hle, ?_⟩
    simp only [record_signal, if_pos hle] at h
    exact (Option.some.inj h).symm
  · by_cases hr : env.instsAfterReset ≠ 0
    · simp only [record_signal, if_neg hle, if_pos hr] at h
      cases h
    · simp only [record_signal, if_neg hle, if_neg hr] at h
      have h2 := (Option.some.inj h).symm
      subst h2
      exact Or.inr ⟨by omega, rfl, rfl, rfl⟩

lemma drain_sound (w : Nat → Bool) :
    ∀ (steps : List (Status × Regs)) (ctx : Context) (tr : Tracee)
      (c : Context) (t : Tracee) (ds : List Int),
      drain w ctx tr steps = some (c, t, ds) →
      w c.child_regs.eip = false ∧ (∀ d ∈ ds, d = 0) ∧
        ds.length ≤ steps.length := by
  intro steps
  induction steps with
  | nil =>
    intro ctx tr c t ds h
    by_cases hw : w ctx.child_regs.eip
    · simp [drain, hw] at h
    · simp only [drain, hw, if_false, Bool.false_eq_true] at h
      obtain ⟨rfl, rfl, rfl⟩ := h
      simpa using hw
  | cons s rest ih =>
    intro ctx tr c t ds h
    obtain ⟨st, rg⟩ := s
    by_cases hw : w ctx.child_regs.eip
    · simp only [drain, hw, if_true] at h
      cases hrec : drain w { ctx with status := st, child_regs := rg }
          { tr with regs := rg } rest with
      | none => rw [hrec] at h; cases h
      | some p =>
        obtain ⟨c2, t2, ds2⟩ := p
        rw [hrec] at h
        obtain ⟨rfl, rfl, rfl⟩ := Prod.mk.injEq .. ▸ (Option.some.inj h)
        obtain ⟨hw2, hz, hl⟩ := ih _ _ _ _ _ hrec
        refine ⟨hw2, ?_, by simpa using Nat.succ_le_succ hl⟩
        intro d hd
        rcases List.mem_cons.mp hd with rfl | hd2
        · rfl
        · exact hz d hd2
    · simp only [drain, hw, if_false, Bool.false_eq_true] at h
      obtain ⟨rfl, rfl, rfl⟩ := h
      simpa using hw

lemma drain_terminates (w : Nat → Bool) :
    ∀ (steps : List (Status × Regs)) (ctx : Context) (tr : Tracee),
      (w ctx.child_regs.eip = false ∨ ∃ s ∈ steps, w s.2.eip = false) →
      (drain w ctx tr steps).isSome = true := by
  intro steps
  induction steps with
  | nil =>
    intro ctx tr h
    rcases h with h | ⟨s, hs, _⟩
    · simp [drain, h]
    · cases hs
  | cons s rest ih =>
    intro ctx tr h
    obtain ⟨st, rg⟩ := s
    by_cases hw : w ctx.child_regs.eip
    · have hnext : w rg.eip = false ∨ ∃ s2 ∈ rest, w s2.2.eip = false := by
        rcases h with h | ⟨s2, hs2, hf⟩
        · rw [h] at hw; cases hw
        · rcases List.mem_cons.mp hs2 with rfl | hmem
          · exact Or.inl hf
          · exact Or.inr ⟨s2, hmem, hf⟩
      have hrec := ih { ctx with status := st, child_regs := rg }
        { tr with regs := rg } hnext
      simp only [drain, hw, if_true]
      cases hd : drain w { ctx with status := st, child_regs := rg }
          { tr with regs := rg } rest with
      | none => rw [hd] at hrec; cases hrec
      | some p => obtain ⟨c2, t2, ds2⟩ := p; rfl
    · simp [drain, hw]

/-- C1: for every kernel fault-info record, a signal number in the
synchronous-fault class (SIGILL, SIGTRAP, SIGBUS, SIGFPE, SIGSEGV,
SIGSTKFLT) is classified deterministic exactly when the origin code si_code
is strictly positive, and every other signal number is classified
non-deterministic whatever the origin code. -/
theorem c1_determinism_classifier (si : Siginfo) :
    ((si.si_signo = SIGILL ∨ si.si_signo = SIGTRAP ∨ si.si_signo = SIGBUS ∨
        si.si_signo = SIGFPE ∨ si.si_signo = SIGSEGV ∨
        si.si_signo = SIGSTKFLT) →
      (is_deterministic_signal si = true ↔ 0 < si.si_code)) ∧
    (¬ (si.si_signo = SIGILL ∨ si.si_signo = SIGTRAP ∨ si.si_signo = SIGBUS ∨
        si.si_signo = SIGFPE ∨ si.si_signo = SIGSEGV ∨
        si.si_signo = SIGSTKFLT) →
      is_deterministic_signal si = false) := by
  constructor
  · intro h
    unfold is_deterministic_signal
    rw [if_pos h]
    exact decide_eq_true_iff
  · intro h
    unfold is_deterministic_signal
    rw [if_neg h]

/-- Witness for C1: a kernel-generated segmentation fault (origin code 1) is
deterministic; signal 10 (SIGUSR1, outside the class) with the same origin
code is not. -/
theorem c1_witness :
    is_deterministic_signal ⟨11, 1, 0⟩ = true ∧
    is_deterministic_signal ⟨10, 1, 0⟩ = false := by
  constructor
  · exact ((c1_determinism_classifier ⟨11, 1, 0⟩).1 (by decide)).mpr (by decide)
  · exact (c1_determinism_classifier ⟨10, 1, 0⟩).2 (by decide)

/-- C6 counterexample: with the trace-trap signal SIGTRAP pending, neither
synthetic-fault handler is a no-op returning zero; the assert
(sig != SIGTRAP) at the top of each fires, aborting the recorder (modelled
as none), so the claim fails for the pending-signal value SIGTRAP. -/
theorem c6_counterexample :
    try_handle_rdtsc env0 (ctx0 5) tr0 = none ∧
    try_handle_shared_mmap_access env0 (ctx0 5) tr0 = none :=
  ⟨rfl, rfl⟩

/-- C6 amended: for every pending signal other than the segmentation fault
and other than the trace-trap signal SIGTRAP (on which an internal assertion
aborts), including no pending signal at all, each synthetic-fault handler
returns zero (not handled) and leaves the context and the tracee unchanged. -/
theorem c6_handlers_noop (env : Env) (ctx : Context) (tr : Tracee)
    (h1 : signal_pending ctx.status ≠ SIGSEGV)
    (h2 : signal_pending ctx.status ≠ SIGTRAP) :
    try_handle_rdtsc env ctx tr = some (0, ctx, tr, []) ∧
    try_handle_shared_mmap_access env ctx tr = some (0, ctx, tr, []) :=
  ⟨by simp only [try_handle_rdtsc, if_neg h2, if_pos (Or.inr h1)],
   by simp only [try_handle_shared_mmap_access, if_neg h2, if_pos (Or.inr h1)]⟩

/-- Witness for the amended C6: with SIGFPE pending both handlers return
zero and the context and tracee are returned unchanged. -/
theorem c6_witness :
    try_handle_rdtsc env0 (ctx0 8) tr0 = some (0, ctx0 8, tr0, []) ∧
    try_handle_shared_mmap_access env0 (ctx0 8) tr0 =
      some (0, ctx0 8, tr0, []) :=
  c6_handlers_noop env0 (ctx0 8) tr0 (by decide) (by decide)

/-- C8: with a pending segmentation fault whose faulting address lies outside
every protected region, the shared-memory interceptor returns zero (not
handled) and returns the context (event and pending signal included) and the
tracee (registers and memory included) exactly as given, assigning nothing. -/
theorem c8_unprotected_noop (env : Env) (ctx : Context) (tr : Tracee)
    (hsig : signal_pending ctx.status = SIGSEGV)
    (hprot : env.isProtected env.si.si_addr = false) :
    try_handle_shared_mmap_access env ctx tr = some (0, ctx, tr, []) := by
  have h2 : signal_pending ctx.status ≠ SIGTRAP := by rw [hsig]; decide
  have h3 : ¬ (signal_pending ctx.status ≤ 0 ∨
      signal_pending ctx.status ≠ SIGSEGV) := by
    rw [hsig]; decide
  simp only [try_handle_shared_mmap_access, if_neg h2, if_neg h3, if_pos hprot]

/-- Witness for C8: concrete unprotected segmentation fault; the interceptor
reports not handled and hands back the untouched context and tracee. -/
theorem c8_witness :
    try_handle_shared_mmap_access env0 (ctx0 11) tr0 =
      some (0, ctx0 11, tr0, []) :=
  c8_unprotected_noop env0 (ctx0 11) tr0 rfl rfl

/-- C2: at a stop with a pending segmentation fault whose current instruction
decodes as rdtsc of length L, the orchestrator (entered outside any critical
section) has the emulator sample the 64-bit counter once, write its low 32
bits to eax and high 32 bits to edx, advance eip by exactly L, leave esp
untouched, set the event to the timestamp-trap tag, and clear the pending
signal to zero. -/
theorem c2_rdtsc_emulation (env : Env) (ctx : Context) (tr : Tracee)
    (hw : env.inWrapper ctx.child_regs.eip = false)
    (hsig : signal_pending ctx.status = SIGSEGV)
    (hinst : env.inst.text.take 5 = "rdtsc") :
    (handle_signal env ctx tr).map (fun o =>
        (o.ctx.event, o.ctx.child_sig, o.tr.regs.eax, o.tr.regs.edx,
          o.tr.regs.eip, o.tr.regs.esp, o.resolvedAs)) =
      some (SIG_SEGV_RDTSC, 0, env.rdtscVal % 2 ^ 64 % 2 ^ 32,
        env.rdtscVal % 2 ^ 64 / 2 ^ 32,
        (tr.regs.eip + env.inst.size) % 2 ^ 32, tr.regs.esp,
        Resolution.rdtscTrap) := by
  have hd := drain_skip env.inWrapper ctx tr env.drainSteps hw
  have h2 : signal_pending ctx.status ≠ SIGTRAP := by rw [hsig]; decide
  have h3 : ¬ (signal_pending ctx.status ≤ 0 ∨
      signal_pending ctx.status ≠ SIGSEGV) := by rw [hsig]; decide
  have hr : try_handle_rdtsc env ctx tr =
      some (1, { ctx with event := SIG_SEGV_RDTSC },
        { tr with regs := { tr.regs with
          eax := env.rdtscVal % 2 ^ 64 % 2 ^ 32,
          edx := env.rdtscVal % 2 ^ 64 / 2 ^ 32,
          eip := (tr.regs.eip + env.inst.size) % 2 ^ 32 } },
        [SIG_SEGV_RDTSC]) := by
    simp only [try_handle_rdtsc, if_neg h2, if_neg h3, if_pos hinst]
  simp [handle_signal, hd, hsig, hr]

/-- Witness for C2, the end-to-end scenario: 2-byte rdtsc, sampled counter
0x1_0000_0002; eax becomes 2, edx becomes 1, eip advances from 0 to 2, the
event is the timestamp-trap tag, the pending signal ends cleared. -/
theorem c2_witness :
    (handle_signal envC2 (ctx0 11) tr0).map (fun o =>
        (o.ctx.event, o.ctx.child_sig, o.tr.regs.eax, o.tr.regs.edx,
          o.tr.regs.eip, o.tr.regs.esp, o.resolvedAs)) =
      some (SIG_SEGV_RDTSC, 0, 2, 1, 2, 0, Resolution.rdtscTrap) := by
  have h := c2_rdtsc_emulation envC2 (ctx0 11) tr0 rfl rfl rfl
  exact h

/-- C3: at a stop with a pending segmentation fault whose faulting address
lies inside a protected region (entered outside any critical section, the
instruction not decoding as rdtsc), the interceptor assigns the
mapped-memory-read or mapped-memory-write tag matching the decoded access
kind to the event field strictly before the in-place emulation step runs
(the emulation collaborator receives the already-tagged context), the
handler result is nonzero, and the pending signal ends cleared to zero. -/
theorem c3_mmap_interception (env : Env) (ctx : Context) (tr : Tracee)
    (hw : env.inWrapper ctx.child_regs.eip = false)
    (hsig : signal_pending ctx.status = SIGSEGV)
    (hinst : ¬ env.inst.text.take 5 = "rdtsc")
    (hprot : ¬ env.isProtected env.si.si_addr = false) :
    handle_signal env ctx tr =
      some ⟨{ ctx with event := mmapTag env, child_sig := 0 },
        env.emulate { ctx with event := mmapTag env } tr, [], [], [],
        [mmapTag env, mmapTag env], Resolution.mmapAccess⟩ ∧
    mmapTag env ≠ 0 := by
  have hd := drain_skip env.inWrapper ctx tr env.drainSteps hw
  have h2 : signal_pending ctx.status ≠ SIGTRAP := by rw [hsig]; decide
  have h3 : ¬ (signal_pending ctx.status ≤ 0 ∨
      signal_pending ctx.status ≠ SIGSEGV) := by rw [hsig]; decide
  have hr : try_handle_rdtsc env ctx tr = some (0, ctx, tr, []) := by
    simp only [try_handle_rdtsc, if_neg h2, if_neg h3, if_neg hinst]
  have htag : mmapTag env ≠ 0 := by
    unfold mmapTag
    cases h : env.isWrite <;> simp [SIG_SEGV_MMAP_READ, SIG_SEGV_MMAP_WRITE]
  have hm : try_handle_shared_mmap_access env ctx tr =
      some (mmapTag env, { ctx with event := mmapTag env },
        env.emulate { ctx with event := mmapTag env } tr, [mmapTag env]) := by
    simp only [try_handle_shared_mmap_access, if_neg h2, if_neg h3,
      if_neg hprot, mmapTag]
  refine ⟨?_, htag⟩
  simp [handle_signal, hd, hsig, hr, hm, htag]

/-- Witness for C3, the end-to-end scenario: fault at protected address 4096
decoded as a write; the event becomes the mapped-memory-write tag, the
pending signal ends cleared, and the resolution is the mapped access path. -/
theorem c3_witness :
    (handle_signal envC3 (ctx0 11) tr0).map (fun o =>
        (o.ctx.event, o.ctx.child_sig, o.resolvedAs)) =
      some (SIG_SEGV_MMAP_WRITE, 0, Resolution.mmapAccess) ∧
    mmapTag envC3 ≠ 0 := by
  have h := c3_mmap_interception envC3 (ctx0 11) tr0 rfl rfl (by decide)
    (by decide)
  exact ⟨by rw [h.1]; rfl, h.2⟩

/-- C4: at a stop with the scheduling-interrupt signal pending (entered
outside any critical section): when the counter has reached the budget the
orchestrator tags scheduler-time-slice-expired, clears the pending signal,
and returns without any genuine-signal recording (no event appended, no
data persisted, no signal re-delivered); when the counter is below the
budget it falls through to the genuine-signal recorder. -/
theorem c4_scheduler_policy (env : Env) (ctx : Context) (tr : Tracee)
    (hw : env.inWrapper ctx.child_regs.eip = false)
    (hsig : signal_pending ctx.status = SIGIO) :
    (MAX_RECORD_INTERVAL ≤ env.rbc →
      handle_signal env ctx tr =
        some ⟨{ ctx with event := USR_SCHED, child_sig := 0 }, tr, [], [], [],
          [USR_SCHED], Resolution.sched⟩) ∧
    (env.rbc < MAX_RECORD_INTERVAL →
      handle_signal env ctx tr =
        (record_signal (signal_pending ctx.status) env ctx tr).map
          (genuineOut [] [])) := by
  have hd := drain_skip env.inWrapper ctx tr env.drainSteps hw
  have hns : signal_pending ctx.status ≠ SIGSEGV := by rw [hsig]; decide
  have hneq : SIGIO ≠ SIGSEGV := by decide
  constructor
  · intro hge
    simp [handle_signal, hd, hns, hsig, hge, hneq]
  · intro hlt
    have hnge : ¬ MAX_RECORD_INTERVAL ≤ env.rbc := by omega
    simp [handle_signal, hd, hns, hsig, hnge, hneq]

/-- Witness for C4: with the counter at 2000000 (budget reached) the stop is
resolved as a time-slice expiry with the pending signal cleared; with the
counter at 0 the same stop is handed to the genuine-signal recorder. -/
theorem c4_witness :
    handle_signal envC4 (ctx0 29) tr0 =
      some ⟨{ ctx0 29 with event := USR_SCHED, child_sig := 0 }, tr0, [], [],
        [], [USR_SCHED], Resolution.sched⟩ ∧
    handle_signal env0 (ctx0 29) tr0 =
      (record_signal (signal_pending (ctx0 29).status) env0 (ctx0 29) tr0).map
        (genuineOut [] []) :=
  ⟨(c4_scheduler_policy envC4 (ctx0 29) tr0 rfl rfl).1 (by decide),
   (c4_scheduler_policy env0 (ctx0 29) tr0 rfl rfl).2 (by decide)⟩

/-- C7: in the genuine-signal recorder, for a positive signal with the
post-reset counter assertion passing, exactly one memory region is persisted,
tagged with the signal event and located at the post-step stack pointer; its
length is the conservative 1024 bytes when the post-step retired-instruction
count is zero, and 0 bytes (no handler-entry frame) when that count is
nonzero. -/
theorem c7_frame_capture (sig : Int) (env : Env) (ctx : Context) (tr : Tracee)
    (hpos : 0 < sig) (hreset : env.instsAfterReset = 0) :
    (record_signal sig env ctx tr).map (fun ro =>
        (ro.recordedData, ro.ctx.event)) =
      some ([(sigEvent sig env.si,
        if env.instsAfterStep = 0 then 1024 else 0,
        env.sigStepRegs.esp)], sigEvent sig env.si) := by
  have hle : ¬ sig ≤ 0 := by omega
  have hr : ¬ env.instsAfterReset ≠ 0 := by omega
  simp only [record_signal, if_neg hle, if_neg hr]
  rfl

/-- Witness for C7: a deterministic SIGFPE whose post-step count is zero
persists 1024 bytes at stack pointer 500 tagged -136; the same stop with a
post-step count of 3 persists a zero-length region there. -/
theorem c7_witness :
    (record_signal 8 envC7 (ctx0 8) tr0).map (fun ro =>
        (ro.recordedData, ro.ctx.event)) =
      some ([((-136 : Int), 1024, 500)], (-136 : Int)) ∧
    (record_signal 8 envC7b (ctx0 8) tr0).map (fun ro =>
        (ro.recordedData, ro.ctx.event)) =
      some ([((-136 : Int), 0, 500)], (-136 : Int)) :=
  ⟨c7_frame_capture 8 envC7 (ctx0 8) tr0 (by decide) rfl,
   c7_frame_capture 8 envC7b (ctx0 8) tr0 (by decide) rfl⟩

/-- C9: whenever the orchestrator is entered with the instruction pointer
inside an instrumented critical section, it single-steps delivering signal 0
(every delivered signal in the drain log is 0), refreshing and re-checking
the registers each iteration; any context the loop hands on to
classification has its instruction pointer outside the section; each
iteration consumes exactly one observed stop (the log is no longer than the
supplied stop list, so the remaining iterations strictly decrease); the loop
terminates with a result whenever the instruction pointer is outside the
section initially or some observed stop leaves it; and if the loop never
exits (the model exhausts the observed stops while still inside) no
classification happens at all. -/
theorem c9_drain_loop (env : Env) (ctx : Context) (tr : Tracee) :
    (∀ c t ds, drain env.inWrapper ctx tr env.drainSteps = some (c, t, ds) →
      env.inWrapper c.child_regs.eip = false ∧ (∀ d ∈ ds, d = 0) ∧
        ds.length ≤ env.drainSteps.length) ∧
    ((env.inWrapper ctx.child_regs.eip = false ∨
        ∃ s ∈ env.drainSteps, env.inWrapper s.2.eip = false) →
      (drain env.inWrapper ctx tr env.drainSteps).isSome = true) ∧
    (drain env.inWrapper ctx tr env.drainSteps = none →
      handle_signal env ctx tr = none) := by
  refine ⟨fun c t ds h =>
      drain_sound env.inWrapper env.drainSteps ctx tr c t ds h,
    fun h => drain_terminates env.inWrapper env.drainSteps ctx tr h, ?_⟩
  intro hn
  simp [handle_signal, hn]

/-- Witness for C9: starting inside the wrapper (instruction pointer 0, the
wrapper being addresses below 10) with one observed stop at instruction
pointer 20, the loop terminates; the context it produces is outside the
wrapper; and with a wrapper covering every address and no observed stop
leaving it, the orchestrator produces no classification. -/
theorem c9_witness :
    (drain envC9.inWrapper (ctx0 11) tr0 envC9.drainSteps).isSome = true ∧
    envC9.inWrapper
      (⟨7, ⟨11⟩, 99, 42, ⟨0, 0, 20, 0⟩⟩ : Context).child_regs.eip = false ∧
    handle_signal { env0 with inWrapper := (fun _ => true) } (ctx0 11) tr0 =
      none :=
  ⟨(c9_drain_loop envC9 (ctx0 11) tr0).2.1
      (Or.inr ⟨((⟨11⟩, ⟨0, 0, 20, 0⟩) : Status × Regs), by decide, rfl⟩),
   ((c9_drain_loop envC9 (ctx0 11) tr0).1 _ _ _ rfl).1,
   (c9_drain_loop { env0 with inWrapper := (fun _ => true) }
      (ctx0 11) tr0).2.2 rfl⟩

lemma handle_signal_cases (env : Env) (ctx : Context) (tr : Tracee)
    (out : HSOut) (h : handle_signal env ctx tr = some out) :
    (signal_pending ctx.status = SIGSEGV ∧
      out.resolvedAs = Resolution.rdtscTrap ∧ out.ctx.child_sig = 0 ∧
      out.ctx.event = SIG_SEGV_RDTSC ∧
      out.eventAssignments = [SIG_SEGV_RDTSC, SIG_SEGV_RDTSC]) ∨
    (signal_pending ctx.status = SIGSEGV ∧
      out.resolvedAs = Resolution.mmapAccess ∧ out.ctx.child_sig = 0 ∧
      (out.ctx.event = SIG_SEGV_MMAP_READ ∨
        out.ctx.event = SIG_SEGV_MMAP_WRITE) ∧
      out.eventAssignments = [out.ctx.event, out.ctx.event]) ∨
    (signal_pending ctx.status = SIGIO ∧
      out.resolvedAs = Resolution.sched ∧ out.ctx.child_sig = 0 ∧
      out.ctx.event = USR_SCHED ∧ out.eventAssignments = [USR_SCHED]) ∨
    (out.resolvedAs = Resolution.genuine ∧
      ((signal_pending ctx.status ≤ 0 ∧ out.eventAssignments = []) ∨
        (0 < signal_pending ctx.status ∧
          out.ctx.child_sig = signal_pending ctx.status ∧
          out.ctx.event = sigEvent (signal_pending ctx.status) env.si ∧
          out.eventAssignments = [out.ctx.event]))) := by
  simp only [handle_signal] at h
  cases hd : drain env.inWrapper ctx tr env.drainSteps with
  | none => rw [hd] at h; simp at h
  | some p =>
    obtain ⟨ctx1, tr1, ds⟩ := p
    rw [hd] at h
    simp only [] at h
    by_cases hsegv : signal_pending ctx.status = SIGSEGV
    · rw [if_pos hsegv] at h
      rcases rdtsc_shape env ctx1 tr1 with h1 | h1 | ⟨t2, h1⟩
      · rw [h1] at h; simp at h
      · rw [h1] at h
        simp only [] at h
        rw [if_neg (by decide : ¬ ((0 : Int) ≠ 0))] at h
        rcases mmap_shape env ctx1 tr1 with h2 | h2 | ⟨hm1, hm2, h2⟩
        · rw [h2] at h; simp at h
        · rw [h2] at h
          simp only [] at h
          rw [if_neg (by decide : ¬ ((0 : Int) ≠ 0))] at h
          rcases Option.map_eq_some'.mp h with ⟨ro, hro, hout⟩
          subst hout
          rcases record_props _ env ctx1 tr1 ro hro with
            ⟨hle, _⟩ | ⟨hpos, hcs, hev, has⟩
          · rw [hsegv] at hle; exact absurd hle (by decide)
          · refine Or.inr (Or.inr (Or.inr ⟨rfl, Or.inr ⟨?_, ?_, ?_, ?_⟩⟩))
            · rw [hsegv]; decide
            · exact hcs
            · exact hev
            · simp [genuineOut, has, hev]
        · rw [h2] at h
          simp only [] at h
          rw [if_pos hm2] at h
          have hout := (Option.some.inj h).symm
          subst hout
          exact Or.inr (Or.inl ⟨hsegv, rfl, rfl, hm1, by simp⟩)
      · rw [h1] at h
        simp only [] at h
        rw [if_pos (by decide : (1 : Int) ≠ 0)] at h
        have hout := (Option.some.inj h).symm
        subst hout
        exact Or.inl ⟨hsegv, rfl, rfl, rfl, rfl⟩
    · rw [if_neg hsegv] at h
      by_cases hio : signal_pending ctx.status = SIGIO
      · rw [if_pos hio] at h
        by_cases hrbc : MAX_RECORD_INTERVAL ≤ env.rbc
        · rw [if_pos hrbc] at h
          have hout := (Option.some.inj h).symm
          subst hout
          exact Or.inr (Or.inr (Or.inl ⟨hio, rfl, rfl, rfl, rfl⟩))
        · rw [if_neg hrbc] at h
          rcases Option.map_eq_some'.mp h with ⟨ro, hro, hout⟩
          subst hout
          rcases record_props _ env ctx1 tr1 ro hro with
            ⟨hle, _⟩ | ⟨hpos, hcs, hev, has⟩
          · rw [hio] at hle; exact absurd hle (by decide)
          · refine Or.inr (Or.inr (Or.inr ⟨rfl, Or.inr ⟨?_, ?_, ?_, ?_⟩⟩))
            · rw [hio]; decide
            · exact hcs
            · exact hev
            · simp [genuineOut, has, hev]
      · rw [if_neg hio] at h
        rcases Option.map_eq_some'.mp h with ⟨ro, hro, hout⟩
        subst hout
        rcases record_props _ env ctx1 tr1 ro hro with
          ⟨hle, hro2⟩ | ⟨hpos, hcs, hev, has⟩
        · subst hro2
          exact Or.inr (Or.inr (Or.inr ⟨rfl, Or.inl ⟨hle, by simp [genuineOut]⟩⟩))
        · exact Or.inr (Or.inr (Or.inr ⟨rfl, Or.inr
            ⟨hpos, hcs, hev, by simp [genuineOut, has, hev]⟩⟩))

/-- C5 counterexample: the orchestrator entered with pending-signal value 0
(a wait status carrying no pending signal) returns having assigned no
outcome tag at all to the event field, not exactly one: record_signal
returns immediately on a nonpositive signal, so the assignment log is
empty. -/
theorem c5_counterexample :
    (handle_signal env0 (ctx0 0) tr0).map (fun o => o.eventAssignments) =
      some [] :=
  rfl

/-- C5 amended: on every invocation of the orchestrator that returns, if the
pending signal read on entry is positive then at least one outcome tag is
assigned to the event field and every assigned value equals the single final
outcome tag (the synthetic paths write the same tag twice); if the pending
signal is zero or negative, no outcome tag is assigned at all. -/
theorem c5_single_outcome (env : Env) (ctx : Context) (tr : Tracee)
    (out : HSOut) (h : handle_signal env ctx tr = some out) :
    (0 < signal_pending ctx.status →
      out.eventAssignments ≠ [] ∧
      ∀ a ∈ out.eventAssignments, a = out.ctx.event) ∧
    (signal_pending ctx.status ≤ 0 → out.eventAssignments = []) := by
  rcases handle_signal_cases env ctx tr out h with
    ⟨hs, hres, hcs, hev, has⟩ | ⟨hs, hres, hcs, hev, has⟩ |
    ⟨hs, hres, hcs, hev, has⟩ | ⟨hres, ⟨hle, has⟩ | ⟨hp2, hcs, hev, has⟩⟩
  · refine ⟨fun _ => ⟨by simp [has], by simp [has, hev]⟩, fun hle => ?_⟩
    rw [hs] at hle; exact absurd hle (by decide)
  · refine ⟨fun _ => ⟨by simp [has], by simp [has]⟩, fun hle => ?_⟩
    rw [hs] at hle; exact absurd hle (by decide)
  · refine ⟨fun _ => ⟨by simp [has], by simp [has, hev]⟩, fun hle => ?_⟩
    rw [hs] at hle; exact absurd hle (by decide)
  · exact ⟨fun hpos => absurd hle (by omega), fun _ => has⟩
  · exact ⟨fun _ => ⟨by simp [has], by simp [has]⟩,
      fun hle => absurd hle (by omega)⟩

/-- Witness for the amended C5: the concrete genuine-signal run (pending
SIGFPE) assigns at least one outcome tag. -/
theorem c5_witness : ¬ outC10.eventAssignments = [] :=
  ((c5_single_outcome env0 (ctx0 8) tr0 outC10 rfl).1 (by decide)).1

/-- C10: on every invocation of the orchestrator entered with a positive
pending signal that returns: if the stop was resolved on the genuine-signal
recording path then the child_sig field equals the raw pending signal number
read on entry (and is therefore nonzero); on every other (synthetic-fault or
scheduler-preemption) path the pending signal is cleared to zero. -/
theorem c10_pending_signal (env : Env) (ctx : Context) (tr : Tracee)
    (out : HSOut) (h : handle_signal env ctx tr = some out)
    (hpos : 0 < signal_pending ctx.status) :
    (out.resolvedAs = Resolution.genuine →
      out.ctx.child_sig = signal_pending ctx.status ∧
        out.ctx.child_sig ≠ 0) ∧
    (out.resolvedAs ≠ Resolution.genuine → out.ctx.child_sig = 0) := by
  rcases handle_signal_cases env ctx tr out h with
    ⟨hs, hres, hcs, hev, has⟩ | ⟨hs, hres, hcs, hev, has⟩ |
    ⟨hs, hres, hcs, hev, has⟩ | ⟨hres, ⟨hle, has⟩ | ⟨hp2, hcs, hev, has⟩⟩
  · exact ⟨fun hg => absurd (hres ▸ hg : Resolution.rdtscTrap = Resolution.genuine)
      (by decide), fun _ => hcs⟩
  · exact ⟨fun hg => absurd (hres ▸ hg : Resolution.mmapAccess = Resolution.genuine)
      (by decide), fun _ => hcs⟩
  · exact ⟨fun hg => absurd (hres ▸ hg : Resolution.sched = Resolution.genuine)
      (by decide), fun _ => hcs⟩
  · exact absurd hle (by omega)
  · exact ⟨fun _ => ⟨hcs, by rw [hcs]; omega⟩, fun hng => absurd hres hng⟩

/-- Witness for C10: the concrete genuine run with pending SIGFPE ends with
child_sig equal to 8, hence nonzero. -/
theorem c10_witness :
    outC10.ctx.child_sig = signal_pending (ctx0 8).status ∧
    outC10.ctx.child_sig ≠ 0 :=
  (c10_pending_signal env0 (ctx0 8) tr0 outC10 rfl (by decide)).1 rfl
